import Mathlib

/-!
Verification of the GeneGnome genomic merge pipeline.

This file shallowly embeds the parts of the repository needed to settle the
frozen claims: the genotype-to-dosage converter (`app/src/genotype_converter.rs`),
the per-chromosome multi-sample merges (`worker/src/job_processor.rs`
`merge_single_chromosome_multi_sample` and `app/src/processor.rs`
`process_chromosome`), their dosage helpers, the quality threshold
(`app/src/models.rs`), the download endpoint (`api-gateway/src/handlers.rs`)
and password generation (`api-gateway/src/security.rs`).

Machine floats are modelled as rationals: every arithmetic operation the
embedded code performs on the values of interest (comparison, adding two
small integers, multiplying and dividing by two, rounding) is exact in
binary floating point, so the rational model agrees with the `f64` code on
the inputs the claims quantify over.  Rust `HashMap` insertion is
last-writer-wins, so the lookup model searches the record list from the
back.  Strings are Lean `String`s; the genotype data the claims range over
is ASCII, where Rust's byte-length and Lean's character-length coincide.
-/

set_option maxRecDepth 10000

namespace GeneGnome

/-- One-character string, modelling Rust `char::to_string`. -/
def charString (c : Char) : String := ⟨[c]⟩

/-- Splitting of a character list at every separator, keeping empty pieces:
the semantics of Rust `str::split` with a character predicate pattern
(`"".split` yields one empty piece, `"a|b"` yields two pieces, `"|"` yields
two empty pieces). -/
def splitOnPred (p : Char → Bool) : List Char → List (List Char)
  | [] => [[]]
  | c :: rest =>
    if p c then
      [] :: splitOnPred p rest
    else
      match splitOnPred p rest with
      | [] => [[c]]
      | h :: t => (c :: h) :: t

/-- Unsigned decimal digit-string value, or `none` when the list is empty or
holds a non-digit. -/
def parseDigits (cs : List Char) : Option Nat :=
  if cs.isEmpty then none
  else if cs.all (fun c => c.isDigit) then
    some (cs.foldl (fun acc c => acc * 10 + (c.toNat - '0'.toNat)) 0)
  else none

/-- Rust `str::parse::<u8>`: optional leading `+`, at least one digit, value
at most 255; a leading `-` is rejected for unsigned integers. -/
def parseU8 (s : String) : Option Nat :=
  let body : Option (List Char) :=
    match s.data with
    | '+' :: rest => some rest
    | '-' :: _ => none
    | cs => some cs
  match body with
  | none => none
  | some cs =>
    match parseDigits cs with
    | some n => if n ≤ 255 then some n else none
    | none => none

/-- Rust `str::parse::<i32>`: optional sign, at least one digit, 32-bit
signed range. -/
def parseI32 (s : String) : Option Int :=
  match s.data with
  | '+' :: rest =>
    match parseDigits rest with
    | some n => if n ≤ 2147483647 then some (n : Int) else none
    | none => none
  | '-' :: rest =>
    match parseDigits rest with
    | some n => if n ≤ 2147483648 then some (-(n : Int)) else none
    | none => none
  | cs =>
    match parseDigits cs with
    | some n => if n ≤ 2147483647 then some (n : Int) else none
    | none => none

/-- `HashMap` built by inserting every record keyed by `keyOf` and then
probed at `k`: insertion overwrites, so the last matching record wins. -/
def hashMapGet {κ α : Type} [DecidableEq κ] (records : List α) (keyOf : α → κ)
    (k : κ) : Option α :=
  records.reverse.find? (fun r => decide (keyOf r = k))

/-- Rust `f64::round`: round half away from zero. -/
def rustRound (q : ℚ) : ℚ :=
  if 0 ≤ q then ((⌊q + 1/2⌋ : ℤ) : ℚ) else ((⌈q - 1/2⌉ : ℤ) : ℚ)

/-! ## Data model (`app/src/models.rs`, parser record types) -/

/-- Provenance of a sample datum (`models.rs` `DataSource`). -/
inductive DataSource
  | Genotyped
  | Imputed
  | ImputedLowQual
deriving DecidableEq, Repr

/-- Per-variant per-sample datum (`models.rs` `SampleData`). -/
structure SampleData where
  sample_id : String
  genotype : String
  dosage : ℚ
  source : DataSource
  imputation_quality : Option ℚ
deriving DecidableEq, Repr

/-- Merged 51-sample variant (`models.rs` `MultiSampleVariant`). -/
structure MultiSampleVariant where
  rsid : String
  chromosome : Nat
  position : Nat
  ref_allele : String
  alt_allele : String
  allele_freq : Option ℚ
  minor_allele_freq : Option ℚ
  is_typed : Bool
  samples : List SampleData
deriving DecidableEq, Repr

/-- Reference-panel row (`models.rs` `ReferencePanelVariant`). -/
structure ReferencePanelVariant where
  chromosome : Nat
  position : Nat
  rsid : Option String
  ref_allele : String
  alt_allele : String
  phased : Bool
  allele_freq : Option ℚ
  minor_allele_freq : Option ℚ
  imputation_quality : Option ℚ
  is_typed : Bool
  sample_genotypes : List String
deriving DecidableEq, Repr

/-- Sparse 23andMe record (`parsers/genome23andme.rs` `Genome23Record`). -/
structure Genome23Record where
  rsid : String
  chromosome : String
  position : Nat
  genotype : String
deriving DecidableEq, Repr

/-- Imputed dosage record (`parsers/vcf.rs` `VCFRecord`). -/
structure VCFRecord where
  rsid : String
  chromosome : Nat
  position : Nat
  ref_allele : String
  alt_allele : String
  dosage : ℚ
  imputation_quality : Option ℚ
deriving DecidableEq, Repr

/-- Quality threshold (`models.rs` `QualityThreshold`). -/
inductive QualityThreshold
  | R08
  | R09
  | NoFilter
deriving DecidableEq, Repr

/-- `QualityThreshold::threshold_value`. -/
def QualityThreshold.threshold_value : QualityThreshold → Option ℚ
  | .R08 => some (8/10)
  | .R09 => some (9/10)
  | .NoFilter => none

/-- `QualityThreshold::passes`: no filter passes everything, absent R²
passes, otherwise the R² must reach the threshold. -/
def QualityThreshold.passes (t : QualityThreshold) (r2 : Option ℚ) : Bool :=
  match t.threshold_value, r2 with
  | none, _ => true
  | some _, none => true
  | some threshold, some r2_value => decide (threshold ≤ r2_value)

/-! ## Genotype conversion (`app/src/genotype_converter.rs`) -/

/-- Conversion failure (`genotype_converter.rs` `GenotypeConversionError`). -/
inductive GenotypeConversionError
  | InvalidFormat (genotype : String)
  | AllelesMismatch (genotype ref_allele alt_allele : String)
  | MultiAllelicSite (genotype ref_allele alt_allele : String)
deriving DecidableEq, Repr

/-- `genotype_to_dosage`: `--` or empty means no call (`ok none`); the
genotype must be two characters and the alleles single characters; each
genotype character must match REF or ALT; the dosage is the ALT count. -/
def genotype_to_dosage (genotype ref_allele alt_allele : String) :
    Except GenotypeConversionError (Option ℚ) :=
  if genotype = "--" ∨ genotype = "" then .ok none
  else if genotype.length ≠ 2 then .error (.InvalidFormat genotype)
  else if ref_allele.length ≠ 1 ∨ alt_allele.length ≠ 1 then
    .error (.AllelesMismatch genotype ref_allele alt_allele)
  else
    let allele1 := charString (genotype.data.getD 0 ' ')
    let allele2 := charString (genotype.data.getD 1 ' ')
    let count1 : Option (Nat × Nat) :=
      if allele1 = alt_allele then some (1, 0)
      else if allele1 = ref_allele then some (0, 1)
      else none
    match count1 with
    | none => .error (.AllelesMismatch genotype ref_allele alt_allele)
    | some (alt1, ref1) =>
      let count2 : Option (Nat × Nat) :=
        if allele2 = alt_allele then some (alt1 + 1, ref1)
        else if allele2 = ref_allele then some (alt1, ref1 + 1)
        else none
      match count2 with
      | none => .error (.AllelesMismatch genotype ref_allele alt_allele)
      | some (alt_count, ref_count) =>
        if alt_count + ref_count ≠ 2 then
          .error (.MultiAllelicSite genotype ref_allele alt_allele)
        else .ok (some ((alt_count : ℚ)))

/-! ## Dosage helpers

The worker and the app each carry their own copy of
`format_dosage_as_genotype` and `calculate_dosage_from_genotype`; the two
copies differ, so both are embedded. -/

namespace App

/-- `app/src/processor.rs` `format_dosage_as_genotype`. -/
def format_dosage_as_genotype (dosage : ℚ) : String :=
  if dosage < 1/2 then "0|0"
  else if dosage < 3/2 then "0|1"
  else "1|1"

/-- `app/src/processor.rs` `calculate_dosage_from_genotype`: split on `|`
when present, else on `/`, else 0.0; two parts required; each part parsed
as `i32` with fallback 0. -/
def calculate_dosage_from_genotype (genotype : String) : ℚ :=
  if genotype.data.any (fun c => decide (c = '|')) then
    let parts := splitOnPred (fun c => decide (c = '|')) genotype.data
    if parts.length ≠ 2 then 0
    else
      let allele1 := (parseI32 ⟨parts.getD 0 []⟩).getD 0
      let allele2 := (parseI32 ⟨parts.getD 1 []⟩).getD 0
      ((allele1 + allele2 : ℤ) : ℚ)
  else if genotype.data.any (fun c => decide (c = '/')) then
    let parts := splitOnPred (fun c => decide (c = '/')) genotype.data
    if parts.length ≠ 2 then 0
    else
      let allele1 := (parseI32 ⟨parts.getD 0 []⟩).getD 0
      let allele2 := (parseI32 ⟨parts.getD 1 []⟩).getD 0
      ((allele1 + allele2 : ℤ) : ℚ)
  else 0

end App

namespace Worker

/-- `worker/src/job_processor.rs` `format_dosage_as_genotype`: round the
dosage to the nearest half, then bucket. -/
def format_dosage_as_genotype (dosage : ℚ) : String :=
  let rounded := rustRound (dosage * 2) / 2
  if rounded ≤ 1/4 then "0|0"
  else if rounded ≤ 3/4 then "0|1"
  else if rounded ≤ 5/4 then "0|1"
  else if rounded ≤ 7/4 then "1|1"
  else "1|1"

/-- Separator predicate of the worker's split: `|c| c == '|' || c == '/'`. -/
def sepChar (c : Char) : Bool := decide (c = '|') || decide (c = '/')

/-- `worker/src/job_processor.rs` `calculate_dosage_from_genotype`: split on
`|` or `/`; two parts required; each part parsed as `u8` with fallback 0. -/
def calculate_dosage_from_genotype (genotype : String) : ℚ :=
  let alleles := splitOnPred sepChar genotype.data
  if alleles.length ≠ 2 then 0
  else
    let a1 := (parseU8 ⟨alleles.getD 0 []⟩).getD 0
    let a2 := (parseU8 ⟨alleles.getD 1 []⟩).getD 0
    ((a1 + a2 : ℕ) : ℚ)

end Worker

/-! ## The two per-chromosome multi-sample merges

`worker/src/job_processor.rs` `merge_single_chromosome_multi_sample` and
`app/src/processor.rs` `process_chromosome` both join one chromosome's
reference rows with the submitter's sparse genotypes and dosages.  Only the
in-memory merge is embedded (file parsing and progress publishing are I/O
around it). -/

/-- Dosage-record lookup key `(position, ref_allele, alt_allele)`, used by
both merges. -/
def vcf_lookup_key (record : VCFRecord) : Nat × String × String :=
  (record.position, record.ref_allele, record.alt_allele)

/-- Probe key built from a reference variant, `(position, ref, alt)`. -/
def ref_lookup_key (rv : ReferencePanelVariant) : Nat × String × String :=
  (rv.position, rv.ref_allele, rv.alt_allele)

namespace Worker

/-- The worker's sparse-genotype lookup key: the record's position together
with the genotype's first and second characters (`'-'` when absent).  This
is the key the source actually builds, even though its comment says
`(position, ref_allele, alt_allele)`. -/
def genome_lookup_key (record : Genome23Record) : Nat × String × String :=
  (record.position,
   charString (record.genotype.data.getD 0 '-'),
   charString (record.genotype.data.getD 1 '-'))

/-- Construction of the submitter's `samp51` datum in the worker merge:
sparse genotype first (rendered and converted), then the dosage record,
then the `0|0` placeholder carrying the reference row's R². -/
def user_sample (rv : ReferencePanelVariant) (genome_records : List Genome23Record)
    (vcf_records : List VCFRecord) : SampleData :=
  let key := ref_lookup_key rv
  match hashMapGet genome_records genome_lookup_key key with
  | some genotyped =>
    match genotype_to_dosage genotyped.genotype rv.ref_allele rv.alt_allele with
    | .ok (some dosage) =>
      { sample_id := "samp51", genotype := format_dosage_as_genotype dosage,
        dosage := dosage, source := .Genotyped, imputation_quality := none }
    | _ =>
      match hashMapGet vcf_records vcf_lookup_key key with
      | some vcf =>
        { sample_id := "samp51", genotype := format_dosage_as_genotype vcf.dosage,
          dosage := vcf.dosage,
          source := if vcf.imputation_quality.getD 1 < 3/10 then
              DataSource.ImputedLowQual else DataSource.Imputed,
          imputation_quality := vcf.imputation_quality }
      | none =>
        { sample_id := "samp51", genotype := "0|0", dosage := 0,
          source := .Imputed, imputation_quality := rv.imputation_quality }
  | none =>
    match hashMapGet vcf_records vcf_lookup_key key with
    | some vcf =>
      { sample_id := "samp51", genotype := format_dosage_as_genotype vcf.dosage,
        dosage := vcf.dosage,
        source := if vcf.imputation_quality.getD 1 < 3/10 then
            DataSource.ImputedLowQual else DataSource.Imputed,
        imputation_quality := vcf.imputation_quality }
    | none =>
      { sample_id := "samp51", genotype := "0|0", dosage := 0,
        source := .Imputed, imputation_quality := rv.imputation_quality }

/-- The 50 reference sample data of one variant, `samp{idx+1}` in iteration
order over `sample_genotypes`. -/
def ref_samples (rv : ReferencePanelVariant) : List SampleData :=
  rv.sample_genotypes.enum.map (fun p =>
    { sample_id := "samp" ++ toString (p.1 + 1),
      genotype := p.2,
      dosage := calculate_dosage_from_genotype p.2,
      source := if rv.is_typed then DataSource.Genotyped else DataSource.Imputed,
      imputation_quality := rv.imputation_quality })

/-- One emitted merged variant of the worker merge: the reference core
fields plus the 50 reference sample data followed by the submitter's
datum. -/
def merged_row (chr : Nat) (genome_records : List Genome23Record)
    (vcf_records : List VCFRecord) (rv : ReferencePanelVariant) :
    MultiSampleVariant :=
  { rsid := rv.rsid.getD (toString chr ++ ":" ++ toString rv.position),
    chromosome := chr,
    position := rv.position,
    ref_allele := rv.ref_allele,
    alt_allele := rv.alt_allele,
    allele_freq := rv.allele_freq,
    minor_allele_freq := rv.minor_allele_freq,
    is_typed := rv.is_typed,
    samples := ref_samples rv ++ [user_sample rv genome_records vcf_records] }

/-- `merge_single_chromosome_multi_sample`: quality-filter each reference
row, then emit its merged row. -/
def merge_single_chromosome_multi_sample (chr : Nat)
    (ref_variants : List ReferencePanelVariant)
    (genome_records : List Genome23Record) (vcf_records : List VCFRecord)
    (quality_threshold : QualityThreshold) : List MultiSampleVariant :=
  ref_variants.filterMap (fun rv =>
    if quality_threshold.passes rv.imputation_quality then
      some (merged_row chr genome_records vcf_records rv)
    else none)

end Worker

namespace App

/-- Construction of the submitter's `samp51` datum in the app merge: the
sparse genotype is consulted only when a dosage record at
`(position, ref, alt)` exists (the genome lookup is by position alone);
with no dosage record the datum is the `./.` low-quality placeholder. -/
def user_sample (rv : ReferencePanelVariant) (vcf_records : List VCFRecord)
    (genome_records : List Genome23Record) : SampleData :=
  match hashMapGet vcf_records vcf_lookup_key (ref_lookup_key rv) with
  | some user_vcf =>
    match hashMapGet genome_records (fun r => r.position) rv.position with
    | some user_genome =>
      match genotype_to_dosage user_genome.genotype rv.ref_allele rv.alt_allele with
      | .ok (some dosage) =>
        { sample_id := "samp51", genotype := user_genome.genotype,
          dosage := dosage, source := .Genotyped,
          imputation_quality := user_vcf.imputation_quality }
      | _ =>
        { sample_id := "samp51",
          genotype := format_dosage_as_genotype user_vcf.dosage,
          dosage := user_vcf.dosage,
          source := match user_vcf.imputation_quality with
            | some qual => if qual < 3/10 then DataSource.ImputedLowQual
                           else DataSource.Imputed
            | none => DataSource.Imputed,
          imputation_quality := user_vcf.imputation_quality }
    | none =>
      { sample_id := "samp51",
        genotype := format_dosage_as_genotype user_vcf.dosage,
        dosage := user_vcf.dosage,
        source := match user_vcf.imputation_quality with
          | some qual => if qual < 3/10 then DataSource.ImputedLowQual
                         else DataSource.Imputed
          | none => DataSource.Imputed,
        imputation_quality := user_vcf.imputation_quality }
  | none =>
    { sample_id := "samp51", genotype := "./.", dosage := 0,
      source := .ImputedLowQual, imputation_quality := none }

/-- The 50 reference sample data, as built in `process_chromosome`. -/
def ref_samples (rv : ReferencePanelVariant) : List SampleData :=
  rv.sample_genotypes.enum.map (fun p =>
    { sample_id := "samp" ++ toString (p.1 + 1),
      genotype := p.2,
      dosage := calculate_dosage_from_genotype p.2,
      source := if rv.is_typed then DataSource.Genotyped else DataSource.Imputed,
      imputation_quality := rv.imputation_quality })

/-- One emitted merged variant of the app merge. -/
def merged_row (chr : Nat) (user_vcf_records : List VCFRecord)
    (user_genome_records : List Genome23Record) (rv : ReferencePanelVariant) :
    MultiSampleVariant :=
  { rsid := rv.rsid.getD ("chr" ++ toString chr ++ ":" ++ toString rv.position),
    chromosome := chr,
    position := rv.position,
    ref_allele := rv.ref_allele,
    alt_allele := rv.alt_allele,
    allele_freq := rv.allele_freq,
    minor_allele_freq := rv.minor_allele_freq,
    is_typed := rv.is_typed,
    samples := ref_samples rv ++ [user_sample rv user_vcf_records user_genome_records] }

/-- The merge loop of `process_chromosome` (steps 4-5 of the function:
lookups plus the per-reference-variant loop). -/
def process_chromosome_merge (chr : Nat)
    (ref_variants : List ReferencePanelVariant)
    (user_vcf_records : List VCFRecord)
    (user_genome_records : List Genome23Record)
    (quality_threshold : QualityThreshold) : List MultiSampleVariant :=
  ref_variants.filterMap (fun rv =>
    if quality_threshold.passes rv.imputation_quality then
      some (merged_row chr user_vcf_records user_genome_records rv)
    else none)

end App

/-! ## Download endpoint (`api-gateway/src/handlers.rs`) -/

/-- Row selected by the download endpoint's token query. -/
structure JobDownloadRecord where
  id : String
  user_id : String
  status : String
  result_path : Option String
  expires_at : Option Int
  download_password_hash : Option String
  download_attempts : Int
  max_download_attempts : Int
  last_download_attempt : Option Int
deriving DecidableEq, Repr

/-- `handlers.rs` `AppError`. -/
inductive AppError
  | NotFound
  | BadRequest (msg : String)
  | Forbidden
  | Internal (msg : String)
deriving DecidableEq, Repr

/-- `AppError::into_response`: HTTP status code and response body message. -/
def AppError.into_response : AppError → Nat × String
  | .NotFound => (404, "Resource not found")
  | .BadRequest msg => (400, msg)
  | .Forbidden => (403, "Access denied")
  | .Internal _ => (500, "Internal server error")

/-- Observable side effects of `download_results`, in program order:
audit-row inserts, the Argon2 password verification, and the SQL `UPDATE`
incrementing `download_attempts` and stamping `last_download_attempt`. -/
inductive DownloadEvent
  | recordAttempt (attempt_result : String)
  | verifyPassword
  | incrementAttempts
deriving DecidableEq, Repr

/-- Check 2 of `download_results`: the job has an expiry in the past. -/
def expiredGuard (job : JobDownloadRecord) (now : Int) : Bool :=
  job.expires_at.elim false (fun expires_at => decide (expires_at < now))

/-- Check 3: the attempt counter has reached the maximum. -/
def attemptsGuard (job : JobDownloadRecord) : Bool :=
  decide (job.max_download_attempts ≤ job.download_attempts)

/-- Check 4: fewer than 20 seconds since the last recorded attempt. -/
def rateGuard (job : JobDownloadRecord) (now : Int) : Bool :=
  job.last_download_attempt.elim false (fun last => decide (now - last < 20))

/-- The download endpoint after the token lookup, as the ordered checks of
`handlers.rs` `download_results`: completion, expiry, attempt cap, rate
limit, then password verification followed by the attempts `UPDATE`, and
only then the branch on the verification result.  `verify` stands for
`verify_password` against the stored hash; the event list records the side
effects in the order the source performs them. -/
def download_results (job : JobDownloadRecord) (now : Int) (password : String)
    (verify : String → String → Bool) :
    Except AppError String × List DownloadEvent :=
  if job.status ≠ "completed" then
    (.error (.BadRequest "Job not completed"), [.recordAttempt "job_not_found"])
  else if expiredGuard job now then
    (.error (.BadRequest "Download link expired"), [.recordAttempt "job_expired"])
  else if attemptsGuard job then
    (.error (.BadRequest "Maximum download attempts exceeded"),
     [.recordAttempt "max_attempts_exceeded"])
  else if rateGuard job now then
    (.error (.BadRequest "Too many attempts, please wait"),
     [.recordAttempt "rate_limited"])
  else
    match job.download_password_hash with
    | none => (.error (.Internal "No password hash found"), [])
    | some hash =>
      let password_valid := verify password hash
      if password_valid = false then
        (.error (.BadRequest "Invalid password"),
         [.verifyPassword, .incrementAttempts, .recordAttempt "invalid_password"])
      else
        match job.result_path with
        | none =>
          (.error (.Internal "No result path found"),
           [.verifyPassword, .incrementAttempts, .recordAttempt "success"])
        | some result_path =>
          (.ok result_path,
           [.verifyPassword, .incrementAttempts, .recordAttempt "success"])

/-- Whether some occurrence of `a` precedes the first occurrence of `b` in
the event list. -/
def occursBefore (events : List DownloadEvent) (a b : DownloadEvent) : Bool :=
  (events.takeWhile (fun e => decide (e ≠ b))).any (fun e => decide (e = a))

/-! ## Credential generation (`api-gateway/src/security.rs`) -/

/-- `security.rs` `PASSWORD_CHARSET`, byte for byte. -/
def PASSWORD_CHARSET : List Char :=
  "ABCDEFGHJKLMNPQRSTUVWXYZabcdefghjkmnpqrstuvwxyz23456789!@#$%^&*".data

/-- `security.rs` `PASSWORD_LENGTH`. -/
def PASSWORD_LENGTH : Nat := 16

/-- `generate_download_password`, with the random generator abstracted as
the index choice `idx`; `gen_range(0..PASSWORD_CHARSET.len())` guarantees
every choice is below the charset length. -/
def generate_download_password (idx : Nat → Nat) : String :=
  ⟨(List.range PASSWORD_LENGTH).map (fun i => PASSWORD_CHARSET.getD (idx i) 'A')⟩

/-- Alphabet as the claim words it: uppercase letters excluding `I` and `O`,
lowercase letters excluding `l` and `o`, digits 2-9, and `!@#$%^&*`.  Stated
from the claim's words, for comparison against `PASSWORD_CHARSET`. -/
def claimedPasswordCharset : List Char :=
  "ABCDEFGHJKLMNPQRSTUVWXYZabcdefghijkmnpqrstuvwxyz23456789!@#$%^&*".data

/-! ## Concrete inputs used to evaluate the code -/

/-- Reference variant at chr1:100 with `ref=T`, `alt=C` and no R². -/
def c1Ref : ReferencePanelVariant :=
  { chromosome := 1, position := 100, rsid := some "rs1", ref_allele := "T",
    alt_allele := "C", phased := true, allele_freq := none,
    minor_allele_freq := none, imputation_quality := none, is_typed := true,
    sample_genotypes := List.replicate 50 "0|0" }

/-- Sparse record at position 100 with genotype `TT`. -/
def c1Genome : Genome23Record :=
  { rsid := "rs1", chromosome := "1", position := 100, genotype := "TT" }

/-- Dosage record at `(100, T, C)` with dosage 0.1 and R² 0.5. -/
def c1Vcf : VCFRecord :=
  { rsid := "rs1", chromosome := 1, position := 100, ref_allele := "T",
    alt_allele := "C", dosage := 1/10, imputation_quality := some (1/2) }

/-- Reference variant with 50 genotypes for checking the 51-sample shape. -/
def c2Ref : ReferencePanelVariant :=
  { chromosome := 1, position := 150, rsid := some "rs9", ref_allele := "A",
    alt_allele := "G", phased := true, allele_freq := none,
    minor_allele_freq := none, imputation_quality := none, is_typed := false,
    sample_genotypes := List.replicate 50 "0|1" }

/-- Reference variant at chr1:200 with `ref=T`, `alt=C` and R² 0.95. -/
def c3Ref : ReferencePanelVariant :=
  { chromosome := 1, position := 200, rsid := some "rs2", ref_allele := "T",
    alt_allele := "C", phased := true, allele_freq := none,
    minor_allele_freq := none, imputation_quality := some (19/20),
    is_typed := false, sample_genotypes := List.replicate 50 "0|0" }

/-- Dosage record at `(200, T, C)` with R² 0.95. -/
def c3Vcf : VCFRecord :=
  { rsid := "rs2", chromosome := 1, position := 200, ref_allele := "T",
    alt_allele := "C", dosage := 1/10, imputation_quality := some (19/20) }

/-- Sparse record at position 200 with genotype `TT`. -/
def c3Genome : Genome23Record :=
  { rsid := "rs2", chromosome := "1", position := 200, genotype := "TT" }

/-- Sparse record at position 200 with genotype `TC` (it matches the worker's
genotype-character lookup key for `(200, T, C)`). -/
def c3GenomeTC : Genome23Record :=
  { rsid := "rs2", chromosome := "1", position := 200, genotype := "TC" }

/-- Reference variant with R² 0.5 and no matching submitter data. -/
def c4Ref : ReferencePanelVariant :=
  { chromosome := 1, position := 300, rsid := some "rs3", ref_allele := "A",
    alt_allele := "G", phased := true, allele_freq := none,
    minor_allele_freq := none, imputation_quality := some (1/2),
    is_typed := false, sample_genotypes := List.replicate 50 "0|0" }

/-- Completed job row that reaches password verification. -/
def c7Job : JobDownloadRecord :=
  { id := "job-1", user_id := "alice@example.com", status := "completed",
    result_path := some "/results/results_job-1.zip", expires_at := none,
    download_password_hash := some "argon2id-hash", download_attempts := 0,
    max_download_attempts := 5, last_download_attempt := none }

/-- Completed job row whose expiry lies in the past. -/
def c8ExpiredJob : JobDownloadRecord :=
  { id := "job-2", user_id := "bob@example.com", status := "completed",
    result_path := some "/results/results_job-2.zip", expires_at := some (-5),
    download_password_hash := some "argon2id-hash", download_attempts := 0,
    max_download_attempts := 5, last_download_attempt := none }

/-- Completed job row attempted again 5 seconds after the last attempt. -/
def c8RateJob : JobDownloadRecord :=
  { id := "job-3", user_id := "carol@example.com", status := "completed",
    result_path := some "/results/results_job-3.zip", expires_at := none,
    download_password_hash := some "argon2id-hash", download_attempts := 1,
    max_download_attempts := 5, last_download_attempt := some (-5) }

/-- Completed job row that reaches verification with a wrong password. -/
def c8BadPwJob : JobDownloadRecord :=
  { id := "job-4", user_id := "dave@example.com", status := "completed",
    result_path := some "/results/results_job-4.zip", expires_at := none,
    download_password_hash := some "argon2id-hash", download_attempts := 0,
    max_download_attempts := 5, last_download_attempt := none }

/-! ## Helper lemmas -/

/-- Every branch of the worker's `samp51` construction carries the id
`samp51`. -/
lemma worker_user_sample_id (rv : ReferencePanelVariant)
    (g : List Genome23Record) (v : List VCFRecord) :
    (Worker.user_sample rv g v).sample_id = "samp51" := by
  simp only [Worker.user_sample]
  repeat' split
  all_goals rfl

/-- Every branch of the app's `samp51` construction carries the id
`samp51`. -/
lemma app_user_sample_id (rv : ReferencePanelVariant)
    (v : List VCFRecord) (g : List Genome23Record) :
    (App.user_sample rv v g).sample_id = "samp51" := by
  unfold App.user_sample
  repeat' split
  all_goals rfl

/-- Canonical sample-id order of a merged variant: `samp1, …, samp50`
followed by `samp51`. -/
def expectedSampleIds : List String :=
  (List.range 50).map (fun i => "samp" ++ toString (i + 1)) ++ ["samp51"]

/-- The worker's 50 reference sample data carry ids `samp1, …, samp50` in
order. -/
lemma ref_samples_ids_worker (rv : ReferencePanelVariant)
    (h : rv.sample_genotypes.length = 50) :
    (Worker.ref_samples rv).map SampleData.sample_id =
      (List.range 50).map (fun i => "samp" ++ toString (i + 1)) := by
  unfold Worker.ref_samples
  rw [List.map_map]
  calc rv.sample_genotypes.enum.map (SampleData.sample_id ∘ fun p =>
        { sample_id := "samp" ++ toString (p.1 + 1), genotype := p.2,
          dosage := Worker.calculate_dosage_from_genotype p.2,
          source := if rv.is_typed then DataSource.Genotyped else DataSource.Imputed,
          imputation_quality := rv.imputation_quality })
      = (rv.sample_genotypes.enum.map Prod.fst).map
          (fun i => "samp" ++ toString (i + 1)) := by
        rw [List.map_map]
        rfl
    _ = (List.range rv.sample_genotypes.length).map
          (fun i => "samp" ++ toString (i + 1)) := by
        rw [List.enum_map_fst]
    _ = (List.range 50).map (fun i => "samp" ++ toString (i + 1)) := by rw [h]

/-- The app's 50 reference sample data carry ids `samp1, …, samp50` in
order. -/
lemma ref_samples_ids_app (rv : ReferencePanelVariant)
    (h : rv.sample_genotypes.length = 50) :
    (App.ref_samples rv).map SampleData.sample_id =
      (List.range 50).map (fun i => "samp" ++ toString (i + 1)) := by
  unfold App.ref_samples
  rw [List.map_map]
  calc rv.sample_genotypes.enum.map (SampleData.sample_id ∘ fun p =>
        { sample_id := "samp" ++ toString (p.1 + 1), genotype := p.2,
          dosage := App.calculate_dosage_from_genotype p.2,
          source := if rv.is_typed then DataSource.Genotyped else DataSource.Imputed,
          imputation_quality := rv.imputation_quality })
      = (rv.sample_genotypes.enum.map Prod.fst).map
          (fun i => "samp" ++ toString (i + 1)) := by
        rw [List.map_map]
        rfl
    _ = (List.range rv.sample_genotypes.length).map
          (fun i => "samp" ++ toString (i + 1)) := by
        rw [List.enum_map_fst]
    _ = (List.range 50).map (fun i => "samp" ++ toString (i + 1)) := by rw [h]

/-- Positions surviving a guarded `filterMap` are the positions of the rows
passing the guard. -/
lemma filterMap_if_positions (p : ReferencePanelVariant → Bool)
    (build : ReferencePanelVariant → MultiSampleVariant)
    (hpos : ∀ rv, (build rv).position = rv.position) :
    ∀ refs : List ReferencePanelVariant,
      (refs.filterMap (fun rv => if p rv then some (build rv) else none)).map
          MultiSampleVariant.position
        = (refs.filter p).map ReferencePanelVariant.position := by
  intro refs
  induction refs with
  | nil => rfl
  | cons rv t ih =>
    rw [List.filterMap_cons, List.filter_cons]
    by_cases h : p rv = true
    · simp only [h, if_true]
      simp [ih, hpos rv]
    · simp only [h]
      simp only [Bool.false_eq_true, if_false]
      simpa using ih

/-- Closed form of the worker's dosage rendering on non-negative dosages:
rounding to the nearest half before bucketing shifts the claimed 0.5 and 1.5
thresholds down to 0.25 and 1.25. -/
lemma worker_format_eq (d : ℚ) (h0 : 0 ≤ d) :
    Worker.format_dosage_as_genotype d =
      if d < 1/4 then "0|0" else if d < 5/4 then "0|1" else "1|1" := by
  have h2 : (0:ℚ) ≤ d * 2 := by linarith
  simp only [Worker.format_dosage_as_genotype, rustRound, if_pos h2]
  rcases lt_or_le d (1/4) with h1 | h1
  · have hf : ⌊d * 2 + 1/2⌋ = 0 := by
      rw [Int.floor_eq_zero_iff]
      constructor
      · simp
        linarith
      · simp
        linarith
    rw [hf, if_pos h1]
    norm_num
  · rcases lt_or_le d (5/4) with h5 | h5
    · have hlow : (1:ℤ) ≤ ⌊d * 2 + 1/2⌋ := by
        apply Int.le_floor.mpr
        push_cast
        linarith
      have hhigh : ⌊d * 2 + 1/2⌋ < 3 := by
        apply Int.floor_lt.mpr
        push_cast
        linarith
      rw [if_neg (not_lt.mpr h1), if_pos h5]
      have hcase : ⌊d * 2 + 1/2⌋ = 1 ∨ ⌊d * 2 + 1/2⌋ = 2 := by omega
      rcases hcase with hf | hf
      · rw [hf]
        norm_num
      · rw [hf]
        norm_num
    · have hge : (3:ℚ) ≤ (⌊d * 2 + 1/2⌋ : ℚ) := by
        have : (3:ℤ) ≤ ⌊d * 2 + 1/2⌋ := by
          apply Int.le_floor.mpr
          push_cast
          linarith
        exact_mod_cast this
      rw [if_neg (not_lt.mpr h1), if_neg (not_lt.mpr h5)]
      rw [if_neg (by linarith), if_neg (by linarith), if_neg (by linarith)]
      split <;> rfl

/-- An in-bounds `getD` is a member of the list. -/
lemma getD_mem : ∀ (l : List Char) (k : Nat), k < l.length → l.getD k 'A' ∈ l := by
  intro l
  induction l with
  | nil =>
    intro k hk
    simp at hk
  | cons a t ih =>
    intro k hk
    cases k with
    | zero => simp [List.getD]
    | succ n =>
      have := ih n (by simpa using hk)
      right
      simpa [List.getD] using this

/-- A list with no separator character splits to a single piece. -/
lemma splitOnPred_no_sep {p : Char → Bool} :
    ∀ cs : List Char, (∀ c ∈ cs, p c = false) → splitOnPred p cs = [cs] := by
  intro cs
  induction cs with
  | nil => intro; rfl
  | cons c rest ih =>
    intro h
    have hc : p c = false := h c (by simp)
    have hrest := ih (fun x hx => h x (by simp [hx]))
    simp [splitOnPred, hc, hrest]

/-! ## The claims -/

/-- C1.  The claim says: with `ref=T`, `alt=C` and a sparse record `TT` at
the position, the merge emits `samp51` with dosage 0.0 and provenance
Genotyped.  The code does not: the worker keys its sparse lookup by the
record's two genotype characters, so the `(position, ref, alt)` probe
misses and `samp51` falls through to the dosage record (provenance
Imputed), or to the `0|0` placeholder (also Imputed) — even though
`genotype_to_dosage "TT" "T" "C"` succeeds with dosage 0.  This theorem
evaluates the worker merge at both failing inputs. -/
theorem C1_sparse_precedence_code_bug :
    genotype_to_dosage "TT" "T" "C" = .ok (some 0) ∧
    hashMapGet [c1Genome] Worker.genome_lookup_key (ref_lookup_key c1Ref) = none ∧
    (Worker.merge_single_chromosome_multi_sample 1 [c1Ref] [c1Genome] []
        QualityThreshold.NoFilter).map
      (fun mv => mv.samples.getLast?.map
        (fun s => (s.sample_id, s.genotype, s.dosage, s.source, s.imputation_quality))) =
      [some ("samp51", "0|0", 0, DataSource.Imputed, none)] ∧
    (Worker.merge_single_chromosome_multi_sample 1 [c1Ref] [c1Genome] [c1Vcf]
        QualityThreshold.NoFilter).map
      (fun mv => mv.samples.getLast?.map (fun s => (s.source, s.imputation_quality))) =
      [some (DataSource.Imputed, some (1/2))] ∧
    DataSource.Imputed ≠ DataSource.Genotyped := by
  refine ⟨rfl, rfl, rfl, ?_, by decide⟩
  have h1 : hashMapGet [c1Genome] Worker.genome_lookup_key (ref_lookup_key c1Ref) =
      none := rfl
  have h2 : hashMapGet [c1Vcf] vcf_lookup_key (ref_lookup_key c1Ref) =
      some c1Vcf := rfl
  have hu : Worker.user_sample c1Ref [c1Genome] [c1Vcf] =
      { sample_id := "samp51",
        genotype := Worker.format_dosage_as_genotype c1Vcf.dosage,
        dosage := c1Vcf.dosage, source := DataSource.Imputed,
        imputation_quality := some (1/2) } := by
    simp only [Worker.user_sample, h1, h2]
    rw [if_neg (by norm_num [c1Vcf] : ¬ (c1Vcf.imputation_quality.getD 1 < (3:ℚ)/10))]
    rfl
  show [((Worker.ref_samples c1Ref ++
      [Worker.user_sample c1Ref [c1Genome] [c1Vcf]]).getLast?).map
        (fun s => (s.source, s.imputation_quality))] =
    [some (DataSource.Imputed, some (1/2))]
  rw [List.getLast?_concat, hu]
  rfl

/-- C2.  Every merged variant produced by either per-chromosome
multi-sample merge has exactly 51 sample data entries ordered
`samp1, …, samp50, samp51`, provided each reference row carries its 50
genotypes. -/
theorem C2_merged_variant_has_51_ordered_samples (chr : Nat)
    (refs : List ReferencePanelVariant) (genome_records : List Genome23Record)
    (vcf_records : List VCFRecord) (qt : QualityThreshold)
    (h50 : ∀ rv ∈ refs, rv.sample_genotypes.length = 50) :
    (∀ mv ∈ Worker.merge_single_chromosome_multi_sample chr refs genome_records
        vcf_records qt,
      mv.samples.length = 51 ∧
        mv.samples.map SampleData.sample_id = expectedSampleIds) ∧
    (∀ mv ∈ App.process_chromosome_merge chr refs vcf_records genome_records qt,
      mv.samples.length = 51 ∧
        mv.samples.map SampleData.sample_id = expectedSampleIds) ∧
    expectedSampleIds =
      ["samp1", "samp2", "samp3", "samp4", "samp5", "samp6", "samp7", "samp8",
       "samp9", "samp10", "samp11", "samp12", "samp13", "samp14", "samp15",
       "samp16", "samp17", "samp18", "samp19", "samp20", "samp21", "samp22",
       "samp23", "samp24", "samp25", "samp26", "samp27", "samp28", "samp29",
       "samp30", "samp31", "samp32", "samp33", "samp34", "samp35", "samp36",
       "samp37", "samp38", "samp39", "samp40", "samp41", "samp42", "samp43",
       "samp44", "samp45", "samp46", "samp47", "samp48", "samp49", "samp50",
       "samp51"] := by
  refine ⟨?_, ?_, by decide⟩
  · intro mv hmv
    rw [Worker.merge_single_chromosome_multi_sample, List.mem_filterMap] at hmv
    obtain ⟨rv, hrv, hf⟩ := hmv
    by_cases hp : qt.passes rv.imputation_quality = true
    · rw [if_pos hp] at hf
      injection hf with hf
      subst hf
      constructor
      · simp [Worker.merged_row, Worker.ref_samples, List.enum_length, h50 rv hrv]
      · show (Worker.ref_samples rv ++
            [Worker.user_sample rv genome_records vcf_records]).map _ = _
        rw [List.map_append, ref_samples_ids_worker rv (h50 rv hrv)]
        simp [worker_user_sample_id, expectedSampleIds]
    · rw [if_neg (by simpa using hp)] at hf
      exact absurd hf (by simp)
  · intro mv hmv
    rw [App.process_chromosome_merge, List.mem_filterMap] at hmv
    obtain ⟨rv, hrv, hf⟩ := hmv
    by_cases hp : qt.passes rv.imputation_quality = true
    · rw [if_pos hp] at hf
      injection hf with hf
      subst hf
      constructor
      · simp [App.merged_row, App.ref_samples, List.enum_length, h50 rv hrv]
      · show (App.ref_samples rv ++
            [App.user_sample rv vcf_records genome_records]).map _ = _
        rw [List.map_append, ref_samples_ids_app rv (h50 rv hrv)]
        simp [app_user_sample_id, expectedSampleIds]
    · rw [if_neg (by simpa using hp)] at hf
      exact absurd hf (by simp)

/-- C2 witness: on a concrete one-variant chromosome the merged row has 51
samples in the canonical order. -/
theorem C2_witness :
    (∀ rv ∈ [c2Ref], rv.sample_genotypes.length = 50) ∧
    (Worker.merged_row 1 [] [] c2Ref).samples.length = 51 ∧
    (Worker.merged_row 1 [] [] c2Ref).samples.map SampleData.sample_id =
      expectedSampleIds := by
  have h := C2_merged_variant_has_51_ordered_samples 1 [c2Ref] [] []
    QualityThreshold.NoFilter (by decide)
  have hm : Worker.merged_row 1 [] [] c2Ref ∈
      Worker.merge_single_chromosome_multi_sample 1 [c2Ref] [] []
        QualityThreshold.NoFilter := by
    show Worker.merged_row 1 [] [] c2Ref ∈ [Worker.merged_row 1 [] [] c2Ref]
    exact List.mem_singleton_self _
  exact ⟨by decide, (h.1 _ hm).1, (h.1 _ hm).2⟩

/-- C3.  The claim says: `samp51.source = Genotyped` implies the R² field is
absent.  The worker merge satisfies this (its Genotyped branch stores
`None`), but the app merge's Genotyped branch copies the dosage record's R²
into `samp51`, contradicting the documented `SampleData` contract ("None if
genotyped").  This theorem evaluates both merges on the same scenario. -/
theorem C3_genotyped_rsquared_code_bug :
    (App.process_chromosome_merge 1 [c3Ref] [c3Vcf] [c3Genome]
        QualityThreshold.NoFilter).map
      (fun mv => mv.samples.getLast?.map (fun s => (s.source, s.imputation_quality))) =
      [some (DataSource.Genotyped, some (19/20))] ∧
    some ((19:ℚ)/20) ≠ (none : Option ℚ) ∧
    (Worker.merge_single_chromosome_multi_sample 1 [c3Ref] [c3GenomeTC] [c3Vcf]
        QualityThreshold.NoFilter).map
      (fun mv => mv.samples.getLast?.map (fun s => (s.source, s.imputation_quality))) =
      [some (DataSource.Genotyped, (none : Option ℚ))] :=
  ⟨rfl, by simp, rfl⟩

/-- C4 counterexample: with no sparse record and no dosage record the app
merge emits `samp51 = (./., 0.0, ImputedLowQual, no R²)`, not the claimed
`(0|0, 0.0, Imputed, R² of the reference row)`. -/
theorem C4_counterexample :
    (App.process_chromosome_merge 1 [c4Ref] [] [] QualityThreshold.NoFilter).map
      (fun mv => mv.samples.getLast?.map
        (fun s => (s.genotype, s.dosage, s.source, s.imputation_quality))) =
      [some ("./.", 0, DataSource.ImputedLowQual, none)] ∧
    ("./." : String) ≠ "0|0" ∧
    DataSource.ImputedLowQual ≠ DataSource.Imputed ∧
    (none : Option ℚ) ≠ c4Ref.imputation_quality :=
  ⟨rfl, by decide, by decide, by simp [c4Ref]⟩

/-- C4 (amended).  In the worker merge, a reference variant with neither a
matching sparse-genotype record nor a matching dosage record gets
`samp51 = (0|0, 0.0, Imputed, R² of the reference row)`; the app merge
instead emits `(./., 0.0, ImputedLowQual, no R²)` whenever the dosage
record is missing. -/
theorem C4_no_data_placeholder (chr : Nat) (refs : List ReferencePanelVariant)
    (gr : List Genome23Record) (vr : List VCFRecord) (qt : QualityThreshold)
    (rv : ReferencePanelVariant) (hrv : rv ∈ refs)
    (hp : qt.passes rv.imputation_quality = true) :
    (hashMapGet gr Worker.genome_lookup_key (ref_lookup_key rv) = none →
     hashMapGet vr vcf_lookup_key (ref_lookup_key rv) = none →
     Worker.merged_row chr gr vr rv ∈
         Worker.merge_single_chromosome_multi_sample chr refs gr vr qt ∧
       (Worker.merged_row chr gr vr rv).samples.getLast? =
         some { sample_id := "samp51", genotype := "0|0", dosage := 0,
                source := DataSource.Imputed,
                imputation_quality := rv.imputation_quality }) ∧
    (hashMapGet vr vcf_lookup_key (ref_lookup_key rv) = none →
     App.merged_row chr vr gr rv ∈
         App.process_chromosome_merge chr refs vr gr qt ∧
       (App.merged_row chr vr gr rv).samples.getLast? =
         some { sample_id := "samp51", genotype := "./.", dosage := 0,
                source := DataSource.ImputedLowQual,
                imputation_quality := none }) := by
  constructor
  · intro hg hv
    constructor
    · rw [Worker.merge_single_chromosome_multi_sample, List.mem_filterMap]
      exact ⟨rv, hrv, by rw [if_pos hp]⟩
    · show (Worker.ref_samples rv ++ [Worker.user_sample rv gr vr]).getLast? = _
      rw [List.getLast?_concat]
      simp only [Worker.user_sample, hg, hv]
  · intro hv
    constructor
    · rw [App.process_chromosome_merge, List.mem_filterMap]
      exact ⟨rv, hrv, by rw [if_pos hp]⟩
    · show (App.ref_samples rv ++ [App.user_sample rv vr gr]).getLast? = _
      rw [List.getLast?_concat]
      simp only [App.user_sample, hv]

/-- C4 witness: the amended fallback behaviour at a concrete variant with
R² 0.5 and empty submitter data. -/
theorem C4_witness :
    c4Ref ∈ [c4Ref] ∧
    QualityThreshold.passes QualityThreshold.NoFilter c4Ref.imputation_quality = true ∧
    (Worker.merged_row 1 [] [] c4Ref ∈
        Worker.merge_single_chromosome_multi_sample 1 [c4Ref] [] []
          QualityThreshold.NoFilter ∧
      (Worker.merged_row 1 [] [] c4Ref).samples.getLast? =
        some { sample_id := "samp51", genotype := "0|0", dosage := 0,
               source := DataSource.Imputed,
               imputation_quality := c4Ref.imputation_quality }) ∧
    (App.merged_row 1 [] [] c4Ref ∈
        App.process_chromosome_merge 1 [c4Ref] [] [] QualityThreshold.NoFilter ∧
      (App.merged_row 1 [] [] c4Ref).samples.getLast? =
        some { sample_id := "samp51", genotype := "./.", dosage := 0,
               source := DataSource.ImputedLowQual,
               imputation_quality := none }) := by
  have h := C4_no_data_placeholder 1 [c4Ref] [] [] QualityThreshold.NoFilter c4Ref
    (List.mem_singleton_self _) rfl
  exact ⟨List.mem_singleton_self _, rfl, h.1 rfl rfl, h.2 rfl⟩

/-- C5.  Under threshold 0.9 a reference variant survives the merge exactly
when its R² is absent or at least 0.9; R² 0.89 fails, R² 0.90 passes,
missing R² passes, and both merges emit precisely the reference rows the
threshold passes. -/
theorem C5_quality_threshold_filter :
    (∀ r2 : Option ℚ, QualityThreshold.passes QualityThreshold.R09 r2 = true ↔
       (r2 = none ∨ ∃ q, r2 = some q ∧ 9/10 ≤ q)) ∧
    QualityThreshold.passes QualityThreshold.R09 (some (89/100)) = false ∧
    QualityThreshold.passes QualityThreshold.R09 (some (90/100)) = true ∧
    QualityThreshold.passes QualityThreshold.R09 none = true ∧
    (∀ chr refs gr vr,
      (Worker.merge_single_chromosome_multi_sample chr refs gr vr
          QualityThreshold.R09).map MultiSampleVariant.position =
        (refs.filter (fun rv =>
          QualityThreshold.passes QualityThreshold.R09 rv.imputation_quality)).map
          ReferencePanelVariant.position) ∧
    (∀ chr refs vr gr,
      (App.process_chromosome_merge chr refs vr gr QualityThreshold.R09).map
          MultiSampleVariant.position =
        (refs.filter (fun rv =>
          QualityThreshold.passes QualityThreshold.R09 rv.imputation_quality)).map
          ReferencePanelVariant.position) := by
  refine ⟨?_, ?_, ?_, rfl, ?_, ?_⟩
  · intro r2
    cases r2 with
    | none => simp [QualityThreshold.passes, QualityThreshold.threshold_value]
    | some q => simp [QualityThreshold.passes, QualityThreshold.threshold_value]
  · simp [QualityThreshold.passes, QualityThreshold.threshold_value]
    norm_num
  · simp [QualityThreshold.passes, QualityThreshold.threshold_value]
    norm_num
  · intro chr refs gr vr
    exact filterMap_if_positions _ _ (fun rv => rfl) refs
  · intro chr refs vr gr
    exact filterMap_if_positions _ _ (fun rv => rfl) refs

/-- C6 counterexample: the worker's rendering maps dosage 0.25 — which lies
in `[0, 2]` and below the claimed 0.5 threshold — to `0|1`, not `0|0`. -/
theorem C6_counterexample :
    (0:ℚ) ≤ 1/4 ∧ (1:ℚ)/4 ≤ 2 ∧ (1:ℚ)/4 < 1/2 ∧
    Worker.format_dosage_as_genotype (1/4) = "0|1" ∧
    Worker.format_dosage_as_genotype (1/4) ≠ "0|0" := by
  have hv : Worker.format_dosage_as_genotype (1/4) = "0|1" := by
    rw [worker_format_eq (1/4) (by norm_num)]
    norm_num
  refine ⟨by norm_num, by norm_num, by norm_num, hv, ?_⟩
  rw [hv]
  decide

/-- C6 (amended).  The app's rendering follows the claimed thresholds
(`d < 0.5 ↦ 0|0`, `0.5 ≤ d < 1.5 ↦ 0|1`, `d ≥ 1.5 ↦ 1|1`); the worker's
rendering, which the worker merge uses when emitting `samp51` from a
dosage record, first rounds to the nearest half and therefore switches at
0.25 and 1.25 instead (`d < 0.25 ↦ 0|0`, `0.25 ≤ d < 1.25 ↦ 0|1`,
`d ≥ 1.25 ↦ 1|1`). -/
theorem C6_dosage_rendering_thresholds (d : ℚ) (h0 : 0 ≤ d) (hd2 : d ≤ 2) :
    (d < 1/2 → App.format_dosage_as_genotype d = "0|0") ∧
    (1/2 ≤ d → d < 3/2 → App.format_dosage_as_genotype d = "0|1") ∧
    (3/2 ≤ d → App.format_dosage_as_genotype d = "1|1") ∧
    (d < 1/4 → Worker.format_dosage_as_genotype d = "0|0") ∧
    (1/4 ≤ d → d < 5/4 → Worker.format_dosage_as_genotype d = "0|1") ∧
    (5/4 ≤ d → Worker.format_dosage_as_genotype d = "1|1") := by
  refine ⟨?_, ?_, ?_, ?_, ?_, ?_⟩
  · intro h
    unfold App.format_dosage_as_genotype
    rw [if_pos h]
  · intro h1 h2
    unfold App.format_dosage_as_genotype
    rw [if_neg (not_lt.mpr h1), if_pos h2]
  · intro h
    unfold App.format_dosage_as_genotype
    rw [if_neg (by linarith), if_neg (by linarith)]
  · intro h
    rw [worker_format_eq d h0, if_pos h]
  · intro h1 h2
    rw [worker_format_eq d h0, if_neg (not_lt.mpr h1), if_pos h2]
  · intro h
    rw [worker_format_eq d h0, if_neg (by linarith), if_neg (by linarith)]

/-- C6 witness: both renderings at the domain boundary dosages 0 and 2. -/
theorem C6_witness :
    (0:ℚ) ≤ 0 ∧ (0:ℚ) ≤ 2 ∧ (0:ℚ) ≤ 2 ∧ (2:ℚ) ≤ 2 ∧
    App.format_dosage_as_genotype 0 = "0|0" ∧
    Worker.format_dosage_as_genotype 0 = "0|0" ∧
    App.format_dosage_as_genotype 2 = "1|1" ∧
    Worker.format_dosage_as_genotype 2 = "1|1" := by
  have ha := C6_dosage_rendering_thresholds 0 (le_refl 0) (by norm_num)
  have hb := C6_dosage_rendering_thresholds 2 (by norm_num) (le_refl 2)
  exact ⟨le_refl 0, by norm_num, by norm_num, le_refl 2,
    ha.1 (by norm_num), ha.2.2.2.1 (by norm_num),
    hb.2.2.1 (by norm_num), hb.2.2.2.2.2 (by norm_num)⟩

/-- C7 counterexample: a request that reaches password verification
produces the trace `[verifyPassword, incrementAttempts, recordAttempt]` —
no increment of `download_attempts` happens before the verification, so
the claimed ordering is violated. -/
theorem C7_counterexample :
    (download_results c7Job 0 "wrong-password" (fun _ _ => false)).2 =
      [DownloadEvent.verifyPassword, DownloadEvent.incrementAttempts,
       DownloadEvent.recordAttempt "invalid_password"] ∧
    DownloadEvent.verifyPassword ∈
      (download_results c7Job 0 "wrong-password" (fun _ _ => false)).2 ∧
    occursBefore (download_results c7Job 0 "wrong-password" (fun _ _ => false)).2
      DownloadEvent.incrementAttempts DownloadEvent.verifyPassword = false :=
  ⟨rfl, by decide, by decide⟩

/-- C7 (amended).  On every download request that reaches password
verification, the endpoint verifies the supplied password first and then
increments `download_attempts` and stamps `last_download_attempt` before
acting on the verification result — so a failed password verification
still consumes an attempt, recorded after (not before) verification. -/
theorem C7_increment_after_verification (job : JobDownloadRecord) (now : Int)
    (password : String) (verify : String → String → Bool)
    (h : DownloadEvent.verifyPassword ∈ (download_results job now password verify).2) :
    (download_results job now password verify).2.take 2 =
        [DownloadEvent.verifyPassword, DownloadEvent.incrementAttempts] ∧
      DownloadEvent.incrementAttempts ∈ (download_results job now password verify).2 := by
  unfold download_results at h ⊢
  by_cases h1 : job.status ≠ "completed"
  · simp [h1] at h
  · by_cases h2 : expiredGuard job now = true
    · simp [h1, h2] at h
    · by_cases h3 : attemptsGuard job = true
      · simp [h1, h2, h3] at h
      · by_cases h4 : rateGuard job now = true
        · simp [h1, h2, h3, h4] at h
        · cases hh : job.download_password_hash with
          | none => simp [h1, h2, h3, h4, hh] at h
          | some hsh =>
            by_cases hv : verify password hsh = false
            · simp [h1, h2, h3, h4, hh, hv]
            · cases hp : job.result_path with
              | none => simp [h1, h2, h3, h4, hh, hv, hp]
              | some rp => simp [h1, h2, h3, h4, hh, hv, hp]

/-- C7 witness: the concrete failed-password request reaches verification
and its trace opens with verification followed by the increment. -/
theorem C7_witness :
    DownloadEvent.verifyPassword ∈
      (download_results c7Job 0 "wrong-password" (fun _ _ => false)).2 ∧
    ((download_results c7Job 0 "wrong-password" (fun _ _ => false)).2.take 2 =
        [DownloadEvent.verifyPassword, DownloadEvent.incrementAttempts] ∧
      DownloadEvent.incrementAttempts ∈
        (download_results c7Job 0 "wrong-password" (fun _ _ => false)).2) :=
  ⟨by decide, C7_increment_after_verification c7Job 0 "wrong-password"
    (fun _ _ => false) (by decide)⟩

/-- C8 counterexample: expiry, rate-limiting and invalid password all
answer with status 400, but their response bodies name the reason and are
pairwise distinct — the body does distinguish which check failed. -/
theorem C8_counterexample :
    (download_results c8ExpiredJob 0 "pw" (fun _ _ => false)).1 =
      .error (.BadRequest "Download link expired") ∧
    (download_results c8RateJob 0 "pw" (fun _ _ => false)).1 =
      .error (.BadRequest "Too many attempts, please wait") ∧
    (download_results c8BadPwJob 0 "pw" (fun _ _ => false)).1 =
      .error (.BadRequest "Invalid password") ∧
    (AppError.BadRequest "Download link expired").into_response.1 = 400 ∧
    (AppError.BadRequest "Too many attempts, please wait").into_response.1 = 400 ∧
    (AppError.BadRequest "Invalid password").into_response.1 = 400 ∧
    (AppError.BadRequest "Download link expired").into_response.2 ≠
      (AppError.BadRequest "Too many attempts, please wait").into_response.2 ∧
    (AppError.BadRequest "Download link expired").into_response.2 ≠
      (AppError.BadRequest "Invalid password").into_response.2 ∧
    (AppError.BadRequest "Too many attempts, please wait").into_response.2 ≠
      (AppError.BadRequest "Invalid password").into_response.2 :=
  ⟨rfl, rfl, rfl, rfl, rfl, rfl, by decide, by decide, by decide⟩

/-- C8 (amended).  Expiry, rate-limiting and invalid-password failures all
return HTTP status 400, and each writes an audit row carrying its reason
code — but the three response bodies are distinct reason messages rather
than one uniform body. -/
theorem C8_failure_responses (job : JobDownloadRecord) (now : Int)
    (password : String) (verify : String → String → Bool) :
    (job.status = "completed" → expiredGuard job now = true →
       download_results job now password verify =
         (.error (.BadRequest "Download link expired"),
          [.recordAttempt "job_expired"]) ∧
       (AppError.BadRequest "Download link expired").into_response =
         (400, "Download link expired")) ∧
    (job.status = "completed" → expiredGuard job now = false →
       attemptsGuard job = false → rateGuard job now = true →
       download_results job now password verify =
         (.error (.BadRequest "Too many attempts, please wait"),
          [.recordAttempt "rate_limited"]) ∧
       (AppError.BadRequest "Too many attempts, please wait").into_response =
         (400, "Too many attempts, please wait")) ∧
    (∀ hash, job.status = "completed" → expiredGuard job now = false →
       attemptsGuard job = false → rateGuard job now = false →
       job.download_password_hash = some hash → verify password hash = false →
       download_results job now password verify =
         (.error (.BadRequest "Invalid password"),
          [.verifyPassword, .incrementAttempts, .recordAttempt "invalid_password"]) ∧
       (AppError.BadRequest "Invalid password").into_response =
         (400, "Invalid password")) ∧
    (("Download link expired" ≠ "Too many attempts, please wait") ∧
     ("Download link expired" ≠ "Invalid password") ∧
     ("Too many attempts, please wait" ≠ "Invalid password")) := by
  refine ⟨?_, ?_, ?_, by decide⟩
  · intro hs he
    constructor
    · unfold download_results
      simp [hs, he]
    · rfl
  · intro hs he ha hr
    constructor
    · unfold download_results
      simp [hs, he, ha, hr]
    · rfl
  · intro hash hs he ha hr hh hv
    constructor
    · unfold download_results
      simp [hs, he, ha, hr, hh, hv]
    · rfl

/-- C8 witness: the expired job's concrete response and audit reason. -/
theorem C8_witness :
    c8ExpiredJob.status = "completed" ∧ expiredGuard c8ExpiredJob 0 = true ∧
    (download_results c8ExpiredJob 0 "pw" (fun _ _ => false) =
       (.error (.BadRequest "Download link expired"),
        [.recordAttempt "job_expired"]) ∧
     (AppError.BadRequest "Download link expired").into_response =
       (400, "Download link expired")) :=
  ⟨rfl, by decide,
   (C8_failure_responses c8ExpiredJob 0 "pw" (fun _ _ => false)).1 rfl (by decide)⟩

/-- C9 counterexample: the code's password alphabet has 63 characters, not
62, and differs from the claim's described alphabet (which itself has 64
characters): the code additionally excludes the lowercase `i`. -/
theorem C9_counterexample :
    PASSWORD_CHARSET.length = 63 ∧
    PASSWORD_CHARSET.length ≠ 62 ∧
    claimedPasswordCharset.length = 64 ∧
    'i' ∈ claimedPasswordCharset ∧
    'i' ∉ PASSWORD_CHARSET ∧
    PASSWORD_CHARSET ≠ claimedPasswordCharset := by decide

/-- C9 (amended).  Every generated download password is exactly 16
characters, each drawn from the 63-character alphabet consisting of the
uppercase letters excluding I and O, the lowercase letters excluding i, l
and o, the digits 2-9, and `!@#$%^&*`. -/
theorem C9_password_generation (idx : Nat → Nat)
    (h : ∀ i, idx i < PASSWORD_CHARSET.length) :
    (generate_download_password idx).length = 16 ∧
    (∀ c ∈ (generate_download_password idx).data, c ∈ PASSWORD_CHARSET) ∧
    PASSWORD_CHARSET.length = 63 ∧
    PASSWORD_CHARSET =
      ("ABCDEFGHIJKLMNOPQRSTUVWXYZ".data.filter
          (fun c => decide (c ≠ 'I') && decide (c ≠ 'O'))) ++
        ("abcdefghijklmnopqrstuvwxyz".data.filter
          (fun c => decide (c ≠ 'i') && decide (c ≠ 'l') && decide (c ≠ 'o'))) ++
        "23456789".data ++ "!@#$%^&*".data := by
  refine ⟨?_, ?_, by decide, by decide⟩
  · simp [generate_download_password, String.length, PASSWORD_LENGTH]
  · intro c hc
    simp only [generate_download_password, List.mem_map] at hc
    obtain ⟨i, _, rfl⟩ := hc
    exact getD_mem _ _ (h i)

/-- C9 witness: a concrete generator choice yields a 16-character password
over the 63-character alphabet. -/
theorem C9_witness :
    (generate_download_password (fun _ => 0)).length = 16 ∧
    PASSWORD_CHARSET.length = 63 := by
  have hidx : ∀ i : Nat, (fun _ : Nat => 0) i < PASSWORD_CHARSET.length := by
    intro i
    show 0 < PASSWORD_CHARSET.length
    decide
  exact ⟨(C9_password_generation (fun _ => 0) hidx).1,
    (C9_password_generation (fun _ => 0) hidx).2.2.1⟩

/-- C10.  Both copies of `calculate_dosage_from_genotype` are total Lean
functions, and on the claim's degenerate inputs they return 0.0: a string
without a `|` or `/` separator, a string that does not split into exactly
two parts, and a string whose allele parts both fail integer parsing
(`./.` included). -/
theorem C10_dosage_computation_total (g : String) :
    ((∀ c ∈ g.data, c ≠ '|' ∧ c ≠ '/') →
      Worker.calculate_dosage_from_genotype g = 0 ∧
        App.calculate_dosage_from_genotype g = 0) ∧
    ((splitOnPred Worker.sepChar g.data).length ≠ 2 →
      Worker.calculate_dosage_from_genotype g = 0) ∧
    (∀ a b, splitOnPred Worker.sepChar g.data = [a, b] →
      parseU8 ⟨a⟩ = none → parseU8 ⟨b⟩ = none →
      Worker.calculate_dosage_from_genotype g = 0) ∧
    (g.data.any (fun c => decide (c = '|')) = true →
      ((splitOnPred (fun c => decide (c = '|')) g.data).length ≠ 2 →
        App.calculate_dosage_from_genotype g = 0) ∧
      (∀ a b, splitOnPred (fun c => decide (c = '|')) g.data = [a, b] →
        parseI32 ⟨a⟩ = none → parseI32 ⟨b⟩ = none →
        App.calculate_dosage_from_genotype g = 0)) ∧
    (g.data.any (fun c => decide (c = '|')) = false →
      g.data.any (fun c => decide (c = '/')) = true →
      ((splitOnPred (fun c => decide (c = '/')) g.data).length ≠ 2 →
        App.calculate_dosage_from_genotype g = 0) ∧
      (∀ a b, splitOnPred (fun c => decide (c = '/')) g.data = [a, b] →
        parseI32 ⟨a⟩ = none → parseI32 ⟨b⟩ = none →
        App.calculate_dosage_from_genotype g = 0)) ∧
    (Worker.calculate_dosage_from_genotype "./." = 0 ∧
      App.calculate_dosage_from_genotype "./." = 0) := by
  refine ⟨?_, ?_, ?_, ?_, ?_, rfl, rfl⟩
  · intro hsep
    constructor
    · have hs : splitOnPred Worker.sepChar g.data = [g.data] := by
        apply splitOnPred_no_sep
        intro c hc
        simp [Worker.sepChar, (hsep c hc).1, (hsep c hc).2]
      simp [Worker.calculate_dosage_from_genotype, hs]
    · have h1 : g.data.any (fun c => decide (c = '|')) = false := by
        simp only [List.any_eq_false]
        intro c hc
        simp [(hsep c hc).1]
      have h2 : g.data.any (fun c => decide (c = '/')) = false := by
        simp only [List.any_eq_false]
        intro c hc
        simp [(hsep c hc).2]
      simp [App.calculate_dosage_from_genotype, h1, h2]
  · intro hs
    simp [Worker.calculate_dosage_from_genotype, hs]
  · intro a b hs ha hb
    simp [Worker.calculate_dosage_from_genotype, hs, ha, hb]
  · intro hpipe
    constructor
    · intro hs
      simp [App.calculate_dosage_from_genotype, hpipe, hs]
    · intro a b hs ha hb
      simp [App.calculate_dosage_from_genotype, hpipe, hs, ha, hb]
  · intro hnp hslash
    constructor
    · intro hs
      simp [App.calculate_dosage_from_genotype, hnp, hslash, hs]
    · intro a b hs ha hb
      simp [App.calculate_dosage_from_genotype, hnp, hslash, hs, ha, hb]

/-- C10 witness: the degenerate inputs `AG` (no separator), `0|1|1` (three
parts) and `a|b` (unparseable parts) all yield dosage 0.0. -/
theorem C10_witness :
    Worker.calculate_dosage_from_genotype "AG" = 0 ∧
    App.calculate_dosage_from_genotype "AG" = 0 ∧
    Worker.calculate_dosage_from_genotype "0|1|1" = 0 ∧
    Worker.calculate_dosage_from_genotype "a|b" = 0 ∧
    App.calculate_dosage_from_genotype "a|b" = 0 :=
  ⟨((C10_dosage_computation_total "AG").1 (by decide)).1,
   ((C10_dosage_computation_total "AG").1 (by decide)).2,
   (C10_dosage_computation_total "0|1|1").2.1 (by decide),
   (C10_dosage_computation_total "a|b").2.2.1 ['a'] ['b'] (by decide)
     (by decide) (by decide),
   ((C10_dosage_computation_total "a|b").2.2.2.1 (by decide)).2 ['a'] ['b']
     (by decide) (by decide) (by decide)⟩

end GeneGnome
